import Mathlib

/-!
Verification of the GATT-style server demo (service registration lifecycle,
attribute-handle routing, event dispatch).

The development shallowly embeds the three dispatch/routing components of the
repository:

* `GattRs` — `RouteRegistry`, `BleServer` and their event handling from
  `src/ble/gatt.rs`;
* `BtMod` — the `BleServer` facade from `src/bt/mod.rs`;
* `BleDemo` — the `ServiceRegistry` from `src/ble/demo.rs`.

Machine handles, UUIDs, connection ids and app ids are modelled as `Nat`
(the code only compares them for equality).  Trait objects
(`Arc<dyn GattServiceHandler>`, `Box<dyn BleService>`) are modelled by small
structures carrying the data the embedded code observes, and callback
side effects (driver commands, log lines, callback invocations) are made
explicit as effect lists.
-/

namespace GattRs

/-- Status (`GattStatus`) of a confirmation event, reduced to the success flag the code
tests (`matches!(status, GattStatus::Ok)` in `check_gatt_status`). -/
inductive GStatus where
  | ok
  | fail
deriving DecidableEq

/-- Error type (`BtError`) from `src/ble/gatt.rs` (payloads reduced to what the claims
observe; `EspError(..)` carries no data since the code only constructs it from
`ESP_FAIL`). -/
inductive BtErr where
  | serviceLimit
  | characteristicLimit
  | invalidHandle
  | espError
  | internal (msg : String)
  | otherErr (msg : String)
deriving DecidableEq

instance {ε α : Type} [DecidableEq ε] [DecidableEq α] :
    DecidableEq (Except ε α) := fun a b =>
  match a, b with
  | .ok x, .ok y =>
    if h : x = y then .isTrue (by rw [h]) else .isFalse (by simp [h])
  | .error x, .error y =>
    if h : x = y then .isTrue (by rw [h]) else .isFalse (by simp [h])
  | .ok _, .error _ => .isFalse (by simp)
  | .error _, .ok _ => .isFalse (by simp)

/-- Model of `check_gatt_status` from `src/ble/gatt.rs`: non-`Ok` statuses become an
`EspError(ESP_FAIL)`. -/
def check_gatt_status : GStatus → Except BtErr Unit
  | .ok => .ok ()
  | .fail => .error .espError

/-- Structure `CharHandle` from `src/ble/gatt.rs`: one characteristic route entry. -/
structure CharHandle where
  char_uuid : Nat
  attr_handle : Option Nat
  service_handle : Option Nat
deriving DecidableEq

/-- Constructor `CharHandle::new`. -/
def CharHandle.new (char_uuid : Nat) : CharHandle :=
  { char_uuid := char_uuid, attr_handle := none, service_handle := none }

/-- Model of `CharHandle::update_handle`. -/
def CharHandle.update_handle (c : CharHandle)
    (attr_handle service_handle : Option Nat) : CharHandle :=
  { c with attr_handle := attr_handle, service_handle := service_handle }

/-- Structure `ServiceRoute` from `src/ble/gatt.rs`.  The `Arc<dyn GattServiceHandler>`
target is modelled by the handler's identity. -/
structure ServiceRoute where
  target : Option Nat
  service_id : Nat
  service_handle : Option Nat
  char_uuids : List Nat
deriving DecidableEq

/-- Structure `RouteRegistry` from `src/ble/gatt.rs`. -/
structure RouteRegistry where
  services : List ServiceRoute
  char_handles : List CharHandle
deriving DecidableEq

/-- Initial registry, `RouteRegistry::default()` (derived `Default`). -/
def RouteRegistry.init : RouteRegistry := ⟨[], []⟩

/-- Replace the first element satisfying `p` (the effect of mutating the
result of `iter_mut().find(..)` in Rust). -/
def updateFirst {α : Type} (p : α → Bool) (f : α → α) : List α → List α
  | [] => []
  | x :: xs => if p x then f x :: xs else x :: updateFirst p f xs

/-- Model of `RouteRegistry::register_service`: error (and no change) when a route with
the same `service_id.id` exists, otherwise push a new `ServiceRoute` with no
runtime handle.  Rust mutates `&mut self`; we return the updated registry
together with the `Result`. -/
def RouteRegistry.register_service (r : RouteRegistry) (service_id : Nat)
    (char_uuids : List Nat) (target : Nat) :
    RouteRegistry × Except BtErr Unit :=
  if r.services.any (fun s => s.service_id == service_id) then
    (r, .error (.internal s!"Service already registered:{service_id}"))
  else
    ({ r with services := r.services ++
        [{ target := some target, service_id := service_id,
           service_handle := none, char_uuids := char_uuids }] },
     .ok ())

/-- Model of `RouteRegistry::update_service_handle` (to be called on
`GattsEvent::ServiceCreated`). -/
def RouteRegistry.update_service_handle (r : RouteRegistry) (service_id : Nat)
    (service_handle : Option Nat) : RouteRegistry × Except BtErr Unit :=
  if r.services.any (fun s => s.service_id == service_id) then
    let services' := updateFirst (fun s => s.service_id == service_id)
      (fun s => { s with service_handle := service_handle }) r.services
    ({ r with services := services' }, .ok ())
  else
    (r, .error (.internal s!"Service not register:{service_id}"))

/-- Model of `RouteRegistry::update_character_route` (to be called on
`GattsEvent::CharacteristicAdded`): updates an existing `CharHandle` entry for
`char_uuid`; errors when no such entry is present. -/
def RouteRegistry.update_character_route (r : RouteRegistry) (char_uuid : Nat)
    (service_handle attr_handle : Nat) : RouteRegistry × Except BtErr Unit :=
  if r.char_handles.any (fun c => c.char_uuid == char_uuid) then
    let chars' := updateFirst (fun c => c.char_uuid == char_uuid)
      (fun c => c.update_handle (some attr_handle) (some service_handle))
      r.char_handles
    ({ r with char_handles := chars' }, .ok ())
  else
    (r, .error (.internal s!"Service handle not present:{service_handle}"))

/-- Model of `RouteRegistry::find_attr_handler`: look up the characteristic route for
`(service_handle, attr_handle)` and, when present, the owning service's
target handler. -/
def RouteRegistry.find_attr_handler (r : RouteRegistry)
    (service_handle attr_handle : Nat) : Option Nat :=
  match r.char_handles.find? (fun c =>
      c.service_handle == some service_handle
        && c.attr_handle == some attr_handle) with
  | some _ =>
    match r.services.find? (fun s => s.service_handle == some service_handle) with
    | some s => s.target
    | none => none
  | none => none

/-- A registered `Arc<dyn GattServiceHandler>`: `hid` is the `Arc`'s identity,
`gsid` the `service_id().id`, and `charUuids` the characteristics its
`on_created` adds (modelled from the `WifiCtl` implementation in
`src/demo_ble.rs`, which starts the service and then issues one
`add_characteristic` per declared characteristic). -/
structure GHandler where
  hid : Nat
  gsid : Nat
  charUuids : List Nat
deriving DecidableEq

/-- Observable side effects of `BleServer::handle_gatts_event`
(`src/ble/gatt.rs`): driver commands issued, callbacks invoked, and the two
`error!` logs of the `ServiceRegistered` / `ServiceCreated` arms. -/
inductive GEffect where
  | execReadyHandler
  | cmdCreateService (service_id : Nat)
  | onCreated (hid : Nat) (service_handle : Nat)
  | cmdStartService (service_handle : Nat)
  | cmdAddCharacteristic (service_handle : Nat) (char_uuid : Nat)
  | logNoReadyHandler
  | logServiceNotFound (service_handle : Nat)
deriving DecidableEq

/-- The `GattsEvent` variants `BleServer::handle_gatts_event` distinguishes.
`serviceStartedEvt` and `writeEvt` stand for events the code merely logs
(the service-started confirmation falls into the catch-all arm and the
`Write` arm's dispatch is commented out). -/
inductive GEvent where
  | serviceRegistered (st : GStatus) (app_id : Nat)
  | serviceCreated (st : GStatus) (service_handle : Nat) (service_id : Nat)
  | characteristicAdded (st : GStatus) (attr_handle : Nat)
      (service_handle : Nat) (char_uuid : Nat)
  | serviceStartedEvt (st : GStatus) (service_handle : Nat)
  | writeEvt (conn_id : Nat) (handle : Nat)
deriving DecidableEq

/-- State of the `BleServer` from `src/ble/gatt.rs`: the app id, the one-shot ready
handler (modelled by the service handlers the demo closure returns; the
closure also issues one `create_service` per returned service, as in
`src/demo_ble.rs`, and external gap/gatts calls are assumed to succeed), and
the `ServerState` fields `instances` and `handlers`
(`HashMap<Handle, Arc<dyn GattServiceHandler>>` as an association list). -/
structure GSrv where
  app_id : Nat
  ready : Option (List GHandler)
  instances : List GHandler
  handlers : List (Nat × GHandler)
deriving DecidableEq

/-- Model of `HashMap::insert`: overwrite the binding for `k`. -/
def mapInsert (m : List (Nat × GHandler)) (k : Nat) (v : GHandler) :
    List (Nat × GHandler) :=
  (k, v) :: m.filter (fun p => p.1 != k)

/-- Effects of `WifiCtl::on_created` (`src/demo_ble.rs`): start the service,
then add each declared characteristic. -/
def GHandler.on_created_effects (h : GHandler) (service_handle : Nat) :
    List GEffect :=
  .cmdStartService service_handle ::
    h.charUuids.map (GEffect.cmdAddCharacteristic service_handle)

/-- Model of `BleServer::handle_gatts_event` (`src/ble/gatt.rs`): returns the updated
server state, the effects emitted while processing the event, and the
`Result` the handler returns (errors are logged by `check_result` in the
subscription closure, never propagated to the driver). -/
def handle_gatts_event (s : GSrv) (e : GEvent) :
    GSrv × List GEffect × Except BtErr Unit :=
  match e with
  | .serviceRegistered st app_id =>
    match check_gatt_status st with
    | .error err => (s, [], .error err)
    | .ok () =>
      if s.app_id == app_id then
        match s.ready with
        | some svcs =>
          ({ s with ready := none, instances := svcs },
           .execReadyHandler :: svcs.map (fun h => .cmdCreateService h.gsid),
           .ok ())
        | none => (s, [.logNoReadyHandler], .ok ())
      else (s, [], .ok ())
  | .serviceCreated st service_handle service_id =>
    match check_gatt_status st with
    | .error err => (s, [], .error err)
    | .ok () =>
      match s.instances.find? (fun h => h.gsid == service_id) with
      | some inst =>
        ({ s with handlers := mapInsert s.handlers service_handle inst },
         .onCreated inst.hid service_handle ::
           inst.on_created_effects service_handle,
         .ok ())
      | none => (s, [.logServiceNotFound service_handle], .ok ())
  | .characteristicAdded st _ _ _ =>
    match check_gatt_status st with
    | .error err => (s, [], .error err)
    | .ok () => (s, [], .ok ())
  | .serviceStartedEvt _ _ => (s, [], .ok ())
  | .writeEvt _ _ => (s, [], .ok ())

/-- Process a serial stream of GATTS events, accumulating effects. -/
def processEvents (s : GSrv) : List GEvent → GSrv × List GEffect
  | [] => (s, [])
  | e :: es =>
    let r := handle_gatts_event s e
    let rest := processEvents r.1 es
    (rest.1, r.2.1 ++ rest.2)

/-- Number of ready-handler executions recorded in an effect list. -/
def countExec (l : List GEffect) : Nat :=
  (l.filter (fun eff => eff == .execReadyHandler)).length

end GattRs

namespace BtMod

/-- Error type `BleError` from `src/bt/mod.rs` (no `AlreadyStarted` variant exists in
the code). -/
inductive BleError where
  | serviceLimit
  | characteristicLimit
  | invalidHandle
  | espError
  | otherErr (s : String)
deriving DecidableEq

/-- A registered `Box<dyn BleService>` (`crates/espble/src/bt/service.rs`):
`sid` is its identity and the flags state whether each callback
(`on_register`, `on_write`, `on_connect`, `on_disconnect`) returns `Err`. -/
structure MService where
  sid : Nat
  registerErr : Bool
  writeErr : Bool
  connectErr : Bool
  disconnectErr : Bool
deriving DecidableEq

/-- Observable side effects of the `src/bt/mod.rs` `BleServer`: service
callback invocations, the `log::warn!` lines for swallowed callback errors,
and the gap driver commands of `start`. -/
inductive MEffect where
  | onRegister (sid : Nat)
  | cmdSetDeviceName
  | cmdSetAdvConf
  | cmdStartAdvertising
  | onWrite (sid conn handle : Nat)
  | warnWriteErr (sid : Nat)
  | onConnect (sid conn : Nat)
  | warnConnectErr (sid : Nat)
  | onDisconnect (sid : Nat)
  | warnDisconnectErr (sid : Nat)
  | notifyMtu (sid mtu : Nat)
deriving DecidableEq

/-- The `GattsEvent` variants `BleServer::on_gatts_event` distinguishes
(payloads reduced to the fields the code uses). -/
inductive MEvent where
  | write (conn handle : Nat)
  | peerConnected (conn addr : Nat)
  | peerDisconnected (addr : Nat)
  | mtu (conn mtu : Nat)
  | otherEvt
deriving DecidableEq

/-- Model of `BleServer::add_service` (`src/bt/mod.rs`): reject with `ServiceLimit`
when 5 or more services are registered, otherwise push.  Rust mutates
`&mut self`; we return the updated service list with the `Result`. -/
def add_service (services : List MService) (s : MService) :
    List MService × Except BleError Unit :=
  if 5 ≤ services.length then (services, .error .serviceLimit)
  else (services ++ [s], .ok ())

/-- The registration loop of `BleServer::start`: call each service's
`on_register` in order, stopping at the first error (`?`). -/
def registerAll : List MService → List MEffect × Except BleError Unit
  | [] => ([], .ok ())
  | s :: rest =>
    if s.registerErr then ([.onRegister s.sid], .error .espError)
    else
      let r := registerAll rest
      (.onRegister s.sid :: r.1, r.2)

/-- Model of `BleServer::start` (`src/bt/mod.rs`): register every service, then
configure and start advertising (gap driver calls assumed to succeed).  The
service list is returned unchanged — the code keeps no started flag and
start does not touch the list. -/
def start (services : List MService) :
    List MService × List MEffect × Except BleError Unit :=
  let r := registerAll services
  match r.2 with
  | .error e => (services, r.1, .error e)
  | .ok () =>
    (services,
     r.1 ++ [.cmdSetDeviceName, .cmdSetAdvConf, .cmdStartAdvertising],
     .ok ())

/-- One service's contribution to the `Write` arm of `on_gatts_event`: the
callback is always invoked, and an `Err` only produces a `log::warn!`. -/
def serviceWriteEffects (conn handle : Nat) (s : MService) : List MEffect :=
  .onWrite s.sid conn handle ::
    (if s.writeErr then [.warnWriteErr s.sid] else [])

/-- One service's contribution to the `PeerConnected` arm. -/
def serviceConnectEffects (conn : Nat) (s : MService) : List MEffect :=
  .onConnect s.sid conn :: (if s.connectErr then [.warnConnectErr s.sid] else [])

/-- One service's contribution to the `PeerDisconnected` arm. -/
def serviceDisconnectEffects (s : MService) : List MEffect :=
  .onDisconnect s.sid ::
    (if s.disconnectErr then [.warnDisconnectErr s.sid] else [])

/-- Model of `BleServer::on_gatts_event` (`src/bt/mod.rs`): write, connect and
disconnect events are delivered to every registered service in order;
callback errors are logged and swallowed and the function returns `Ok`. -/
def on_gatts_event (services : List MService) (e : MEvent) :
    List MEffect × Except BleError Unit :=
  match e with
  | .write conn handle =>
    ((services.map (serviceWriteEffects conn handle)).flatten, .ok ())
  | .peerConnected conn _ =>
    ((services.map (serviceConnectEffects conn)).flatten, .ok ())
  | .peerDisconnected _ =>
    ((services.map serviceDisconnectEffects).flatten, .ok ())
  | .mtu _ mtu =>
    (services.map (fun s => .notifyMtu s.sid mtu), .ok ())
  | .otherEvt => ([], .ok ())

/-- The services whose write callback an effect list records as invoked. -/
def invokedWriteSids (l : List MEffect) : List Nat :=
  l.filterMap fun eff =>
    match eff with
    | .onWrite sid _ _ => some sid
    | _ => none

/-- Concrete services for the counterexamples (no callback errors). -/
def svcA : MService := ⟨1, false, false, false, false⟩

def svcB : MService := ⟨2, false, false, false, false⟩

/-- A service all of whose event callbacks return `Err`. -/
def svcErr : MService := ⟨3, false, true, true, true⟩

end BtMod

namespace BleDemo

/-- A registered `Box<dyn BleService>` from `src/ble/demo.rs`, reduced to its
`service_id` (its `handle_event` is modelled from `KeyboardService`). -/
structure DService where
  dsid : Nat
deriving DecidableEq

/-- The event variants `ServiceRegistry::route_event` distinguishes. -/
inductive DEvent where
  | write (conn trans_id attr_handle : Nat) (need_rsp : Bool)
  | read (conn trans_id attr_handle : Nat) (need_rsp : Bool)
  | otherEvt
deriving DecidableEq

/-- Observable side effects of the demo registry: a service's `handle_event`
invocation and the `send_response` it may issue. -/
inductive DEffect where
  | handleEvent (dsid : Nat)
  | sendResponse (conn trans_id : Nat)
deriving DecidableEq

/-- Callback `handle_event`, modelled from `KeyboardService` (`src/ble/demo.rs`): the
callback runs; on a write needing a response it sends one, other events are
ignored beyond the invocation itself. -/
def DService.handle_event (s : DService) (e : DEvent) : List DEffect :=
  match e with
  | .write conn trans_id _ need_rsp =>
    .handleEvent s.dsid ::
      (if need_rsp then [.sendResponse conn trans_id] else [])
  | _ => [.handleEvent s.dsid]

/-- Structure `ServiceRegistry` from `src/ble/demo.rs`:
`HashMap<GattServiceId, Box<dyn BleService>>` and `HashMap<u16, GattServiceId>`
as association lists. -/
structure ServiceRegistry where
  services : List (Nat × DService)
  handles_map : List (Nat × Nat)
deriving DecidableEq

/-- Model of `ServiceRegistry::register`: insert the service keyed by its own
`service_id()`. -/
def ServiceRegistry.register (r : ServiceRegistry) (svc : DService) :
    ServiceRegistry :=
  { r with services :=
      (svc.dsid, svc) :: r.services.filter (fun p => p.1 != svc.dsid) }

/-- The attribute handle an event names, when it names one. -/
def eventHandle : DEvent → Option Nat
  | .write _ _ h _ => some h
  | .read _ _ h _ => some h
  | .otherEvt => none

/-- Model of `ServiceRegistry::route_event` (`src/ble/demo.rs`): resolve the written
or read attribute handle through `handles_map`, then invoke only the owning
service's `handle_event`; unresolved handles and other events do nothing. -/
def route_event (r : ServiceRegistry) (e : DEvent) : List DEffect :=
  match e with
  | .write _ _ attr_handle _ =>
    match r.handles_map.lookup attr_handle with
    | some service_id =>
      match r.services.lookup service_id with
      | some svc => svc.handle_event e
      | none => []
    | none => []
  | .read _ _ attr_handle _ =>
    match r.handles_map.lookup attr_handle with
    | some service_id =>
      match r.services.lookup service_id with
      | some svc => svc.handle_event e
      | none => []
    | none => []
  | .otherEvt => []

/-- The services whose `handle_event` an effect list records as invoked. -/
def invokedSids (l : List DEffect) : List Nat :=
  l.filterMap fun eff =>
    match eff with
    | .handleEvent sid => some sid
    | _ => none

end BleDemo

namespace GattRs

/-- C1: registering a service and driving the documented confirmation calls
(`update_service_handle` on service-created, `update_character_route` on
characteristic-added) never populates `char_handles`: `register_service`
ignores `char_uuids` for the characteristic table and nothing ever inserts a
`CharHandle`, so `update_character_route` fails and `find_attr_handler`
resolves nothing.  Concretely: service id 1 with one declared characteristic
(uuid 10), service handle 5 confirmed, attribute handle 6 confirmed — the
characteristic ends with zero route entries instead of exactly one, and the
attribute handle does not resolve to the service's handler. -/
theorem c1_char_routes_never_populated :
    (RouteRegistry.init.register_service 1 [10] 100).2 = .ok () ∧
    ((RouteRegistry.init.register_service 1 [10] 100).1.update_service_handle
        1 (some 5)).2 = .ok () ∧
    ((((RouteRegistry.init.register_service 1 [10] 100).1.update_service_handle
        1 (some 5)).1.update_character_route 10 5 6)).2 =
      .error (.internal "Service handle not present:5") ∧
    ((((RouteRegistry.init.register_service 1 [10] 100).1.update_service_handle
        1 (some 5)).1.update_character_route 10 5 6)).1.char_handles = [] ∧
    ((((RouteRegistry.init.register_service 1 [10] 100).1.update_service_handle
        1 (some 5)).1.update_character_route 10 5 6)).1.find_attr_handler 5 6
      = none := by
  decide

/-- C6: `register_service` with an identifier already present fails with the
duplicate-service error and leaves the registry unchanged; with a fresh
identifier it succeeds and appends exactly one `ServiceRoute` for it. -/
theorem c6_register_service_duplicate (r : RouteRegistry) (sid : Nat)
    (chars : List Nat) (t : Nat) :
    ((∃ s ∈ r.services, s.service_id = sid) →
      r.register_service sid chars t =
        (r, .error (.internal s!"Service already registered:{sid}"))) ∧
    ((∀ s ∈ r.services, s.service_id ≠ sid) →
      r.register_service sid chars t =
        ({ r with services := r.services ++
            [{ target := some t, service_id := sid,
               service_handle := none, char_uuids := chars }] },
         .ok ())) := by
  constructor
  · rintro ⟨s, hs, he⟩
    have hany : r.services.any (fun s => s.service_id == sid) = true :=
      List.any_eq_true.mpr ⟨s, hs, by simp [he]⟩
    simp [RouteRegistry.register_service, hany]
  · intro h
    have hany : r.services.any (fun s => s.service_id == sid) = false := by
      rw [List.any_eq_false]
      intro s hs
      simp [h s hs]
    simp [RouteRegistry.register_service, hany]

/-- Witness for C6 at concrete registries: a duplicate registration of
service id 1 fails and keeps the registry, and a fresh registration of
service id 2 appends one entry. -/
theorem c6_register_service_duplicate_witness :
    (RouteRegistry.mk
        [{ target := some 100, service_id := 1,
           service_handle := none, char_uuids := [10] }] []
      ).register_service 1 [11] 200 =
      (RouteRegistry.mk
        [{ target := some 100, service_id := 1,
           service_handle := none, char_uuids := [10] }] [],
       .error (.internal "Service already registered:1")) ∧
    RouteRegistry.init.register_service 2 [12] 300 =
      ({ RouteRegistry.init with services :=
          [{ target := some 300, service_id := 2,
             service_handle := none, char_uuids := [12] }] },
       .ok ()) := by
  constructor
  · exact (c6_register_service_duplicate _ 1 [11] 200).1
      ⟨{ target := some 100, service_id := 1,
         service_handle := none, char_uuids := [10] }, by simp, rfl⟩
  · exact (c6_register_service_duplicate _ 2 [12] 300).2
      (by intro s hs; simp [RouteRegistry.init] at hs)

theorem countExec_append (a b : List GEffect) :
    countExec (a ++ b) = countExec a + countExec b := by
  simp [countExec, List.filter_append]

theorem countExec_map_create (l : List GHandler) :
    countExec (l.map fun h => GEffect.cmdCreateService h.gsid) = 0 := by
  simp [countExec, List.filter_cons]

theorem countExec_on_created (h : GHandler) (sh : Nat) :
    countExec (GEffect.onCreated h.hid sh :: h.on_created_effects sh) = 0 := by
  simp [countExec, GHandler.on_created_effects, List.filter_cons]

theorem countExec_step (s : GSrv) (e : GEvent) :
    countExec (handle_gatts_event s e).2.1 +
      (if (handle_gatts_event s e).1.ready.isSome then 1 else 0) ≤
      (if s.ready.isSome then 1 else 0) := by
  cases e with
  | serviceRegistered st app_id =>
    cases st with
    | fail => simp [handle_gatts_event, check_gatt_status, countExec]
    | ok =>
      cases hc : (s.app_id == app_id) with
      | false => simp [handle_gatts_event, check_gatt_status, hc, countExec]
      | true =>
        cases hr : s.ready with
        | none =>
          simp [handle_gatts_event, check_gatt_status, hc, hr, countExec]
        | some svcs =>
          have hm := countExec_map_create svcs
          simp [handle_gatts_event, check_gatt_status, hc, hr, countExec,
            List.filter_cons] at hm ⊢
  | serviceCreated st sh sid =>
    cases st with
    | fail => simp [handle_gatts_event, check_gatt_status, countExec]
    | ok =>
      cases hf : s.instances.find? (fun h => h.gsid == sid) with
      | none => simp [handle_gatts_event, check_gatt_status, hf, countExec]
      | some inst =>
        have hm := countExec_on_created inst sh
        simp [handle_gatts_event, check_gatt_status, hf] at hm ⊢
        omega
  | characteristicAdded st a b c =>
    cases st <;> simp [handle_gatts_event, check_gatt_status, countExec]
  | serviceStartedEvt st sh => simp [handle_gatts_event, countExec]
  | writeEvt c hdl => simp [handle_gatts_event, countExec]

theorem countExec_processEvents (s : GSrv) (es : List GEvent) :
    countExec (processEvents s es).2 +
      (if (processEvents s es).1.ready.isSome then 1 else 0) ≤
      (if s.ready.isSome then 1 else 0) := by
  induction es generalizing s with
  | nil => simp [processEvents, countExec]
  | cons e es ih =>
    have h1 := countExec_step s e
    have h2 := ih (handle_gatts_event s e).1
    simp only [processEvents, countExec_append]
    omega

/-- C9: across any serially processed stream of GATTS events, the ready
handler installed with `set_ready_handler` runs at most once: the success
`ServiceRegistered` event with matching app id `take`s it (replacing the
instance list with the closure's services and emitting the per-service
`create_service` commands), and once consumed a later such event only logs
the "Ready handler not set" error and leaves the whole server state —
instances included — unchanged. -/
theorem c9_ready_handler_at_most_once (s : GSrv) (es : List GEvent) :
    countExec (processEvents s es).2 ≤ 1 ∧
    (∀ svcs, s.ready = some svcs →
      handle_gatts_event s (.serviceRegistered .ok s.app_id) =
        ({ s with ready := none, instances := svcs },
         .execReadyHandler :: svcs.map (fun h => .cmdCreateService h.gsid),
         .ok ())) ∧
    (s.ready = none →
      handle_gatts_event s (.serviceRegistered .ok s.app_id) =
        (s, [.logNoReadyHandler], .ok ())) := by
  refine ⟨?_, ?_, ?_⟩
  · have h := countExec_processEvents s es
    have h2 : (if s.ready.isSome then 1 else 0) ≤ 1 := by
      by_cases hb : s.ready.isSome <;> simp [hb]
    omega
  · intro svcs hr
    simp [handle_gatts_event, check_gatt_status, hr]
  · intro hr
    simp [handle_gatts_event, check_gatt_status, hr]

/-- Witness for C9: a server whose ready handler is installed processes two
matching success `ServiceRegistered` events with exactly one execution, and a
server with the handler already consumed only logs the error and keeps its
state. -/
theorem c9_ready_handler_at_most_once_witness :
    countExec (processEvents ⟨0, some [⟨7, 1, [10]⟩], [], []⟩
      [.serviceRegistered .ok 0, .serviceRegistered .ok 0]).2 ≤ 1 ∧
    handle_gatts_event ⟨0, none, [⟨7, 1, [10]⟩], []⟩
        (.serviceRegistered .ok 0) =
      (⟨0, none, [⟨7, 1, [10]⟩], []⟩, [.logNoReadyHandler], .ok ()) :=
  ⟨(c9_ready_handler_at_most_once ⟨0, some [⟨7, 1, [10]⟩], [], []⟩
      [.serviceRegistered .ok 0, .serviceRegistered .ok 0]).1,
   (c9_ready_handler_at_most_once ⟨0, none, [⟨7, 1, [10]⟩], []⟩ []).2.2 rfl⟩

/-- C3 counterexample: in the trace `application registered (success);
service created (success, handle 5)` — which contains no service-started
confirmation at all (the code's catch-all arm merely logs that event anyway)
— the handler's `on_created` callback already fires, immediately inside the
`ServiceCreated` arm; it is the callback itself that then issues the
start-service and add-characteristic requests.  So `on_created` is not
invoked "only after the start request has been confirmed", and at the moment
it runs no attribute handle is recorded anywhere (no `CharacteristicAdded`
was processed and nothing populates a route table). -/
theorem c3_counterexample :
    (processEvents ⟨0, some [⟨7, 1, [10, 11]⟩], [], []⟩
        [.serviceRegistered .ok 0, .serviceCreated .ok 5 1]).2 =
      [.execReadyHandler, .cmdCreateService 1, .onCreated 7 5,
       .cmdStartService 5, .cmdAddCharacteristic 5 10,
       .cmdAddCharacteristic 5 11] ∧
    ([GEvent.serviceRegistered .ok 0, .serviceCreated .ok 5 1].all
      (fun e => match e with
        | .serviceStartedEvt _ _ => false
        | _ => true)) = true := by
  decide

/-- C3 (amended): the handle-created callback `on_created` fires while the
success `ServiceCreated` confirmation is being processed, as soon as the
matching registered instance is found — before any characteristic is added
and before the service is started; the handler itself (as `WifiCtl` does)
then issues the start-service and per-characteristic add requests, and the
dispatcher records the service handle in the handler map. -/
theorem c3_on_created_fires_at_service_created (s : GSrv) (h sid : Nat)
    (inst : GHandler)
    (hfind : s.instances.find? (fun g => g.gsid == sid) = some inst) :
    handle_gatts_event s (.serviceCreated .ok h sid) =
      ({ s with handlers := mapInsert s.handlers h inst },
       .onCreated inst.hid h :: .cmdStartService h ::
         inst.charUuids.map (GEffect.cmdAddCharacteristic h),
       .ok ()) := by
  simp [handle_gatts_event, check_gatt_status, hfind,
    GHandler.on_created_effects]

/-- Witness for the amended C3 at a concrete server with one registered
instance. -/
theorem c3_on_created_fires_at_service_created_witness :
    handle_gatts_event ⟨0, none, [⟨7, 1, [10, 11]⟩], []⟩
        (.serviceCreated .ok 5 1) =
      (⟨0, none, [⟨7, 1, [10, 11]⟩], [(5, ⟨7, 1, [10, 11]⟩)]⟩,
       [.onCreated 7 5, .cmdStartService 5, .cmdAddCharacteristic 5 10,
        .cmdAddCharacteristic 5 11],
       .ok ()) :=
  c3_on_created_fires_at_service_created
    ⟨0, none, [⟨7, 1, [10, 11]⟩], []⟩ 5 1 ⟨7, 1, [10, 11]⟩ rfl

/-- C4: a `ServiceCreated` confirmation with non-success status makes
`check_gatt_status` return the error before anything else runs: the server
state (handler map included) is unchanged and no effect — in particular no
`add_characteristic` command and no `on_created` invocation — is emitted;
moreover the handler map only ever changes on a success `ServiceCreated`
confirmation. -/
theorem c4_failed_service_created_no_routing_change (s : GSrv)
    (h sid : Nat) :
    handle_gatts_event s (.serviceCreated .fail h sid) =
      (s, [], .error .espError) ∧
    (∀ e : GEvent, (handle_gatts_event s e).1.handlers ≠ s.handlers →
      ∃ sh sid', e = .serviceCreated .ok sh sid') := by
  constructor
  · simp [handle_gatts_event, check_gatt_status]
  · intro e hne
    match e with
    | .serviceCreated .ok sh sid' => exact ⟨sh, sid', rfl⟩
    | .serviceCreated .fail sh sid' => exact absurd rfl hne
    | .serviceRegistered st app =>
      exfalso; apply hne
      cases st with
      | fail => rfl
      | ok =>
        cases hc : (s.app_id == app) with
        | false => simp [handle_gatts_event, check_gatt_status, hc]
        | true =>
          cases hr : s.ready <;>
            simp [handle_gatts_event, check_gatt_status, hc, hr]
    | .characteristicAdded st a b c =>
      cases st <;> exact absurd rfl hne
    | .serviceStartedEvt st sh => exact absurd rfl hne
    | .writeEvt c hdl => exact absurd rfl hne

/-- Witness for C4: the failure path at a concrete server, and a concrete
handler-map change exhibited as coming from a success `ServiceCreated`. -/
theorem c4_failed_service_created_no_routing_change_witness :
    handle_gatts_event ⟨0, none, [⟨7, 1, [10]⟩], []⟩
        (.serviceCreated .fail 5 1) =
      (⟨0, none, [⟨7, 1, [10]⟩], []⟩, [], .error .espError) ∧
    (∃ sh sid', (GEvent.serviceCreated .ok 5 1) =
      .serviceCreated .ok sh sid') :=
  ⟨(c4_failed_service_created_no_routing_change
      ⟨0, none, [⟨7, 1, [10]⟩], []⟩ 5 1).1,
   (c4_failed_service_created_no_routing_change
      ⟨0, none, [⟨7, 1, [10]⟩], []⟩ 5 1).2
     (.serviceCreated .ok 5 1) (by decide)⟩

end GattRs

theorem lookup_mem {α : Type} {l : List (Nat × α)} {k : Nat} {v : α}
    (h : l.lookup k = some v) : (k, v) ∈ l := by
  induction l with
  | nil => simp [List.lookup] at h
  | cons p rest ih =>
    obtain ⟨k', v'⟩ := p
    cases hk : (k == k') with
    | true =>
      simp [List.lookup, hk] at h
      have hkk : k = k' := by simpa using hk
      simp [hkk, h]
    | false =>
      simp [List.lookup, hk] at h
      exact List.mem_cons_of_mem _ (ih h)

/-- C2 counterexample: `BleServer::on_gatts_event` (`src/bt/mod.rs`), one of
the two dispatchers, delivers a single write event naming handle 7 to the
write callbacks of BOTH registered services — two services' callbacks run
for one handle-naming event, so "at most one registered service's callback"
is false as stated. -/
theorem c2_counterexample :
    BtMod.invokedWriteSids
      (BtMod.on_gatts_event [BtMod.svcA, BtMod.svcB] (.write 3 7)).1 =
      [1, 2] ∧
    ¬ (BtMod.invokedWriteSids
      (BtMod.on_gatts_event [BtMod.svcA, BtMod.svcB] (.write 3 7)).1).length
        ≤ 1 := by
  decide

/-- C2 (amended): exclusive routing holds for the handle-table dispatcher
`ServiceRegistry::route_event` (`src/ble/demo.rs`): per write/read event at
most one service's callback runs, and any service that runs is the one
`handles_map` names as the owner of the event's attribute handle (given the
registry's map invariant that each service is keyed by its own identifier,
as `register` establishes).  `BleServer::on_gatts_event` (`src/bt/mod.rs`),
by contrast, broadcasts every write event to every registered service's
write callback. -/
theorem c2_route_event_exclusive (r : BleDemo.ServiceRegistry)
    (e : BleDemo.DEvent) (hcoh : ∀ p ∈ r.services, p.2.dsid = p.1) :
    (BleDemo.invokedSids (BleDemo.route_event r e)).length ≤ 1 ∧
    (∀ sid ∈ BleDemo.invokedSids (BleDemo.route_event r e),
      ∃ h, BleDemo.eventHandle e = some h ∧
        r.handles_map.lookup h = some sid) ∧
    (∀ (services : List BtMod.MService) (conn handle : Nat),
      ∀ s ∈ services,
        BtMod.MEffect.onWrite s.sid conn handle ∈
          (BtMod.on_gatts_event services (.write conn handle)).1) := by
  refine ⟨?_, ?_, ?_⟩
  · cases e with
    | otherEvt => simp [BleDemo.route_event, BleDemo.invokedSids]
    | write conn trans_id h need_rsp =>
      cases hm : r.handles_map.lookup h with
      | none => simp [BleDemo.route_event, hm, BleDemo.invokedSids]
      | some sid =>
        cases hs : r.services.lookup sid with
        | none => simp [BleDemo.route_event, hm, hs, BleDemo.invokedSids]
        | some svc =>
          cases need_rsp <;>
            simp [BleDemo.route_event, hm, hs, BleDemo.invokedSids,
              BleDemo.DService.handle_event]
    | read conn trans_id h need_rsp =>
      cases hm : r.handles_map.lookup h with
      | none => simp [BleDemo.route_event, hm, BleDemo.invokedSids]
      | some sid =>
        cases hs : r.services.lookup sid with
        | none => simp [BleDemo.route_event, hm, hs, BleDemo.invokedSids]
        | some svc =>
          simp [BleDemo.route_event, hm, hs, BleDemo.invokedSids,
            BleDemo.DService.handle_event]
  · intro sid' hsid'
    cases e with
    | otherEvt => simp [BleDemo.route_event, BleDemo.invokedSids] at hsid'
    | write conn trans_id h need_rsp =>
      refine ⟨h, rfl, ?_⟩
      cases hm : r.handles_map.lookup h with
      | none => simp [BleDemo.route_event, hm, BleDemo.invokedSids] at hsid'
      | some sid =>
        cases hs : r.services.lookup sid with
        | none =>
          simp [BleDemo.route_event, hm, hs, BleDemo.invokedSids] at hsid'
        | some svc =>
          have hd : svc.dsid = sid := hcoh (sid, svc) (lookup_mem hs)
          cases need_rsp <;>
            simp [BleDemo.route_event, hm, hs, BleDemo.invokedSids,
              BleDemo.DService.handle_event] at hsid' <;>
            simp [hm, hsid', hd]
    | read conn trans_id h need_rsp =>
      refine ⟨h, rfl, ?_⟩
      cases hm : r.handles_map.lookup h with
      | none => simp [BleDemo.route_event, hm, BleDemo.invokedSids] at hsid'
      | some sid =>
        cases hs : r.services.lookup sid with
        | none =>
          simp [BleDemo.route_event, hm, hs, BleDemo.invokedSids] at hsid'
        | some svc =>
          have hd : svc.dsid = sid := hcoh (sid, svc) (lookup_mem hs)
          simp [BleDemo.route_event, hm, hs, BleDemo.invokedSids,
            BleDemo.DService.handle_event] at hsid'
          simp [hm, hsid', hd]
  · intro services conn handle s hs
    simp only [BtMod.on_gatts_event]
    refine List.mem_flatten.mpr
      ⟨BtMod.serviceWriteEffects conn handle s,
       List.mem_map_of_mem _ hs, ?_⟩
    simp [BtMod.serviceWriteEffects]

/-- Witness for the amended C2: a one-service registry routing a write on its
own handle invokes at most one callback, and the broadcast dispatcher
delivers a write to a concrete registered service. -/
theorem c2_route_event_exclusive_witness :
    (BleDemo.invokedSids (BleDemo.route_event ⟨[(1, ⟨1⟩)], [(11, 1)]⟩
      (.write 0 0 11 false))).length ≤ 1 ∧
    BtMod.MEffect.onWrite 1 3 7 ∈
      (BtMod.on_gatts_event [BtMod.svcA] (.write 3 7)).1 :=
  ⟨(c2_route_event_exclusive ⟨[(1, ⟨1⟩)], [(11, 1)]⟩
      (.write 0 0 11 false) (by decide)).1,
   (c2_route_event_exclusive ⟨[(1, ⟨1⟩)], [(11, 1)]⟩
      (.write 0 0 11 false) (by decide)).2.2
     [BtMod.svcA] 3 7 BtMod.svcA (by simp)⟩

/-- C5 counterexample: a write event for handle 99 — absent from the demo
registry's handle table and from the (always empty) `RouteRegistry`
characteristic table — still invokes service 1's write callback when
dispatched through `BleServer::on_gatts_event` (`src/bt/mod.rs`), which
consults no route table at all; "the dispatcher invokes no service callback"
is therefore false as stated (and no dispatcher logs an `UnknownHandle`). -/
theorem c5_counterexample :
    (BleDemo.ServiceRegistry.mk [(1, ⟨1⟩)] [(11, 1)]).handles_map.lookup 99
      = none ∧
    GattRs.RouteRegistry.init.char_handles = [] ∧
    BtMod.invokedWriteSids
      (BtMod.on_gatts_event [BtMod.svcA] (.write 1 99)).1 = [1] := by
  decide

/-- C5 (amended): for the handle-table dispatcher
`ServiceRegistry::route_event` (`src/ble/demo.rs`), a write event whose
attribute handle is absent from `handles_map` produces nothing: no service
callback is invoked and no response command is issued (the drop is silent —
the code logs no `UnknownHandle`), and the registry is not modified, so later
events are unaffected.  The `src/bt/mod.rs` dispatcher instead broadcasts the
write to every service regardless of the handle. -/
theorem c5_unresolved_write_dropped (r : BleDemo.ServiceRegistry)
    (conn trans_id h : Nat) (need_rsp : Bool)
    (hnone : r.handles_map.lookup h = none) :
    BleDemo.route_event r (.write conn trans_id h need_rsp) = [] := by
  simp [BleDemo.route_event, hnone]

/-- Witness for the amended C5 at the Scenario-C input: handle 99 was never
registered. -/
theorem c5_unresolved_write_dropped_witness :
    BleDemo.route_event ⟨[(1, ⟨1⟩)], [(11, 1)]⟩ (.write 0 0 99 true) = [] :=
  c5_unresolved_write_dropped ⟨[(1, ⟨1⟩)], [(11, 1)]⟩ 0 0 99 true rfl

/-- C7 counterexample: `start` succeeds on a server holding one service and
leaves the service list unchanged, and a subsequent `add_service` call still
succeeds and appends — it does not fail with any already-started error (the
code keeps no started flag, and `BleError` has no `AlreadyStarted` variant at
all). -/
theorem c7_counterexample :
    (BtMod.start [BtMod.svcA]).2.2 = .ok () ∧
    BtMod.add_service (BtMod.start [BtMod.svcA]).1 BtMod.svcB =
      ([BtMod.svcA, BtMod.svcB], .ok ()) := by
  decide

/-- C7 (amended): registration is not restricted to before `start`:
`BleServer::start` (`src/bt/mod.rs`) leaves the registered-service list
unchanged, and `add_service` performs no started-state check — after `start`
it still succeeds and appends whenever fewer than 5 services are registered
(the only check it makes). -/
theorem c7_add_service_after_start (services : List BtMod.MService)
    (svc : BtMod.MService) (hlen : services.length < 5) :
    (BtMod.start services).1 = services ∧
    BtMod.add_service (BtMod.start services).1 svc =
      (services ++ [svc], .ok ()) := by
  have hst : (BtMod.start services).1 = services := by
    unfold BtMod.start
    cases h : (BtMod.registerAll services).2 <;> simp [h]
  refine ⟨hst, ?_⟩
  rw [hst]
  simp [BtMod.add_service, Nat.not_le.mpr hlen]

/-- Witness for the amended C7 at a concrete one-service server. -/
theorem c7_add_service_after_start_witness :
    (BtMod.start [BtMod.svcA]).1 = [BtMod.svcA] ∧
    BtMod.add_service (BtMod.start [BtMod.svcA]).1 BtMod.svcB =
      ([BtMod.svcA, BtMod.svcB], .ok ()) :=
  c7_add_service_after_start [BtMod.svcA] BtMod.svcB (by decide)

/-- C8: `BleServer::add_service` fails with `BleError::ServiceLimit` and
leaves the service list unchanged exactly when 5 or more services are already
registered; otherwise it appends the given service and returns `Ok`. -/
theorem c8_add_service_limit (services : List BtMod.MService)
    (svc : BtMod.MService) :
    (5 ≤ services.length →
      BtMod.add_service services svc = (services, .error .serviceLimit)) ∧
    (services.length < 5 →
      BtMod.add_service services svc = (services ++ [svc], .ok ())) := by
  constructor
  · intro h
    simp [BtMod.add_service, h]
  · intro h
    simp [BtMod.add_service, Nat.not_le.mpr h]

/-- Witness for C8: rejection at a 5-service server and acceptance at a
1-service server. -/
theorem c8_add_service_limit_witness :
    BtMod.add_service [⟨10, false, false, false, false⟩,
      ⟨11, false, false, false, false⟩, ⟨12, false, false, false, false⟩,
      ⟨13, false, false, false, false⟩, ⟨14, false, false, false, false⟩]
      BtMod.svcB =
      ([⟨10, false, false, false, false⟩, ⟨11, false, false, false, false⟩,
        ⟨12, false, false, false, false⟩, ⟨13, false, false, false, false⟩,
        ⟨14, false, false, false, false⟩], .error .serviceLimit) ∧
    BtMod.add_service [BtMod.svcA] BtMod.svcB =
      ([BtMod.svcA, BtMod.svcB], .ok ()) :=
  ⟨(c8_add_service_limit _ BtMod.svcB).1 (by decide),
   (c8_add_service_limit [BtMod.svcA] BtMod.svcB).2 (by decide)⟩

/-- C10: in `BleServer::on_gatts_event` (`src/bt/mod.rs`) the write, connect
and disconnect loops invoke every registered service's callback — the
services' error flags are arbitrary here, so an `Err` from one callback
(which only produces a `log::warn!`) never prevents the remaining callbacks —
and the function returns `Ok` for the event regardless. -/
theorem c10_handler_errors_swallowed (services : List BtMod.MService) :
    (∀ conn handle,
      (BtMod.on_gatts_event services (.write conn handle)).2 = .ok () ∧
      ∀ s ∈ services,
        BtMod.MEffect.onWrite s.sid conn handle ∈
          (BtMod.on_gatts_event services (.write conn handle)).1) ∧
    (∀ conn addr,
      (BtMod.on_gatts_event services (.peerConnected conn addr)).2 =
        .ok () ∧
      ∀ s ∈ services,
        BtMod.MEffect.onConnect s.sid conn ∈
          (BtMod.on_gatts_event services (.peerConnected conn addr)).1) ∧
    (∀ addr,
      (BtMod.on_gatts_event services (.peerDisconnected addr)).2 = .ok () ∧
      ∀ s ∈ services,
        BtMod.MEffect.onDisconnect s.sid ∈
          (BtMod.on_gatts_event services (.peerDisconnected addr)).1) := by
  refine ⟨fun conn handle => ⟨rfl, fun s hs => ?_⟩,
          fun conn addr => ⟨rfl, fun s hs => ?_⟩,
          fun addr => ⟨rfl, fun s hs => ?_⟩⟩
  · simp only [BtMod.on_gatts_event]
    refine List.mem_flatten.mpr
      ⟨BtMod.serviceWriteEffects conn handle s,
       List.mem_map_of_mem _ hs, ?_⟩
    simp [BtMod.serviceWriteEffects]
  · simp only [BtMod.on_gatts_event]
    refine List.mem_flatten.mpr
      ⟨BtMod.serviceConnectEffects conn s,
       List.mem_map_of_mem _ hs, ?_⟩
    simp [BtMod.serviceConnectEffects]
  · simp only [BtMod.on_gatts_event]
    refine List.mem_flatten.mpr
      ⟨BtMod.serviceDisconnectEffects s,
       List.mem_map_of_mem _ hs, ?_⟩
    simp [BtMod.serviceDisconnectEffects]

/-- Witness for C10 at a server holding one healthy service and one whose
callbacks all return `Err`: both write callbacks are still invoked and the
dispatcher still returns `Ok`. -/
theorem c10_handler_errors_swallowed_witness :
    (BtMod.on_gatts_event [BtMod.svcErr, BtMod.svcA] (.write 1 7)).2 =
      .ok () ∧
    BtMod.MEffect.onWrite 1 1 7 ∈
      (BtMod.on_gatts_event [BtMod.svcErr, BtMod.svcA] (.write 1 7)).1 :=
  ⟨((c10_handler_errors_swallowed [BtMod.svcErr, BtMod.svcA]).1 1 7).1,
   ((c10_handler_errors_swallowed [BtMod.svcErr, BtMod.svcA]).1 1 7).2
     BtMod.svcA (by simp)⟩
